import Mathlib

/-!
Verification development for the local persistence and reactive
synchronization layer of the kototeku2025app repository:

* `db/db-service.ts` — the lazily-initialized SQLite connection singleton
  (`getDatabaseConnection`, module-level `_db` / `_dbPromise` variables);
* `dao/items-dao.ts` — the `ItemsDAO` CRUD functions over the `items` table;
* `managers/ItemsManager.ts` — the `ItemsManager` singleton holding the
  in-memory snapshot and fanning out change notifications.

The embedding is shallow: JavaScript module state becomes explicit state
records, async functions become state-passing functions, the SQLite engine
becomes an explicit table model (a list of rows plus the next rowid), and a
statement that may fail takes an explicit `Option JsError` fault parameter
describing whether (and with which error value) the underlying storage
engine fails that statement.  Since the JavaScript runtime is
single-threaded, the synchronous prefix of each async function is one
atomic step of the model; suspension points (`await`) are where steps of
other logical callers may interleave.
-/

/--
The row shape of the `items` table / the `Item` interface of
`db/db-service.ts`: `id INTEGER PRIMARY KEY NOT NULL`, `is_done INTEGER
DEFAULT 0`, `title TEXT`, `description TEXT`, `updated_at INTEGER`,
`datetime_at INTEGER` (nullable).
-/
structure Item where
  id : Int
  is_done : Bool
  title : String
  description : Option String
  updated_at : Int
  datetime_at : Option Int
deriving Repr, DecidableEq

/--
The `NewItem` type of `db/db-service.ts`: `Omit Item id updated-at` — the
caller supplies every field except `id` and `updated_at`.
-/
structure NewItem where
  is_done : Bool
  title : String
  description : Option String
  datetime_at : Option Int
deriving Repr, DecidableEq

/--
JavaScript error values as propagated by `throw` / promise rejection.
`raw` is an arbitrary error coming out of the storage engine.
`initializationFailed` is the `new Error("Failed to initialize database
connection.")` thrown by `getDatabaseConnection`'s catch block.
`storageOperationError` is the wrapper error described by the
specification's error taxonomy (operation name, optional target id,
cause); it appears here only so that statements about whether the code
produces such a wrapper can be expressed — the code itself never builds
one.
-/
inductive JsError where
  | raw : String → JsError
  | initializationFailed : JsError
  | storageOperationError : String → Option Int → JsError → JsError
deriving Repr, DecidableEq

/-- Recognizer for the specification's `StorageOperationError` shape. -/
def JsError.isStorageOperationError : JsError → Bool
  | .storageOperationError _ _ _ => true
  | _ => false

/-! ## Connection Provider: `db/db-service.ts`

Module state of `db-service.ts`: `_db` (the cached handle) and
`_dbPromise` (the in-flight initialization promise).  Handles and promises
are identified by numbers.  `opens` counts how many open-plus-schema-init
sequences (`openDatabaseAsync` followed by `execAsync(INIT_SQL)`) have been
started; `nextPromise` is a source of fresh promise identities.
-/

/-- Module-level state of `db/db-service.ts` plus instrumentation. -/
structure DbState where
  db : Option Nat
  dbPromise : Option Nat
  opens : Nat
  nextPromise : Nat
deriving Repr, DecidableEq

/--
What a single `getDatabaseConnection()` call returns to its caller:
either the cached handle `_db` (resolved synchronously), or attachment to
the promise identified by the number — the caller resolves or rejects
exactly when that promise does.
-/
inductive CallResult where
  | resolvedCached : Nat → CallResult
  | attached : Nat → CallResult
deriving Repr, DecidableEq

/--
The synchronous step of one `getDatabaseConnection()` call
(`db/db-service.ts`): if `_db` is set, return it; else if `_dbPromise` is
set, return (attach to) it; else install a fresh promise in `_dbPromise`,
starting the open-plus-schema-init sequence (so `opens` grows by one), and
return that promise.  The check of `_dbPromise` and its installation
happen in one synchronous JavaScript turn, hence in one atomic step.
-/
def getDatabaseConnection (s : DbState) : DbState × CallResult :=
  match s.db with
  | some h => (s, .resolvedCached h)
  | none =>
    match s.dbPromise with
    | some p => (s, .attached p)
    | none =>
      ({ s with
          dbPromise := some s.nextPromise
          opens := s.opens + 1
          nextPromise := s.nextPromise + 1 },
       .attached s.nextPromise)

/--
Completion of the in-flight initialization attempt with success: the
`try` branch sets `_db := connection` and clears `_dbPromise`; the pending
promise then resolves with handle `h` for every attached caller.
-/
def initSucceed (s : DbState) (h : Nat) : DbState :=
  { s with db := some h, dbPromise := none }

/--
Completion of the in-flight initialization attempt with failure: the
`catch` branch clears `_dbPromise` (before rethrowing), and the pending
promise then rejects with `initializationFailed` for every attached
caller.
-/
def initFail (s : DbState) : DbState :=
  { s with dbPromise := none }

/--
`n` consecutive `getDatabaseConnection()` calls with no completion step in
between — the shape of `n` concurrent callers all arriving before the
first initialization attempt finishes.
-/
def runCalls : Nat → DbState → DbState × List CallResult
  | 0, s => (s, [])
  | n + 1, s =>
    let sr := getDatabaseConnection s
    let sr2 := runCalls n sr.1
    (sr2.1, sr.2 :: sr2.2)

/-! ## Record Access Layer: `dao/items-dao.ts`

The SQLite table is a list of rows in rowid order plus the next rowid.
Each DAO function takes an `Option JsError` fault telling whether the
statement it issues fails in the engine; the `catch` blocks of
`items-dao.ts` log and rethrow the caught error unchanged, which the
model renders as returning precisely the fault's error value.
-/

/-- The `items` table: rows in rowid (insertion) order, plus the rowid the
engine will assign next (`id INTEGER PRIMARY KEY` auto-assignment). -/
structure DB where
  rows : List Item
  nextId : Int
deriving Repr, DecidableEq

/--
SQLite's ordering on the nullable `datetime_at` column under
`ORDER BY datetime_at ASC`: in SQLite, NULL sorts before every non-NULL
value, so `none` is least.
-/
def nullsFirstLE (a b : Option Int) : Bool :=
  match a, b with
  | none, _ => true
  | some _, none => false
  | some x, some y => x ≤ y

/-- The row order produced by `ORDER BY datetime_at ASC` in SQLite:
compare the `datetime_at` keys with NULL least. -/
def itemOrder (a b : Item) : Prop :=
  nullsFirstLE a.datetime_at b.datetime_at = true

instance : DecidableRel itemOrder := fun a b => by
  unfold itemOrder; infer_instance

theorem nullsFirstLE_total (a b : Option Int) :
    nullsFirstLE a b = true ∨ nullsFirstLE b a = true := by
  unfold nullsFirstLE
  cases a <;> cases b <;> simp <;> omega

theorem nullsFirstLE_trans (a b c : Option Int) (hab : nullsFirstLE a b = true)
    (hbc : nullsFirstLE b c = true) : nullsFirstLE a c = true := by
  unfold nullsFirstLE at *
  cases a <;> cases b <;> cases c <;> simp_all <;> omega

instance : IsTotal Item itemOrder where
  total a b := nullsFirstLE_total a.datetime_at b.datetime_at

instance : IsTrans Item itemOrder where
  trans a b c hab hbc := nullsFirstLE_trans _ _ _ hab hbc

namespace ItemsDAO

/--
`ItemsDAO.getAllItems`: `SELECT * FROM items ORDER BY datetime_at ASC`.
The result is the table's rows sorted by `datetime_at` with NULL least
(SQLite's ordering under ASC); the SQL semantics fix only the multiset of
rows and the key order, which is all the development relies on.  On engine
failure the caught error is rethrown unchanged.
-/
def getAllItems (db : DB) (fault : Option JsError) : Except JsError (List Item) :=
  match fault with
  | some e => .error e
  | none => .ok (db.rows.insertionSort itemOrder)

/--
`ItemsDAO.getItemById`: `SELECT * FROM items WHERE id = ?`, then
`result[0] || null` — the first matching row, or `none`.
-/
def getItemById (db : DB) (id : Int) (fault : Option JsError) :
    Except JsError (Option Item) :=
  match fault with
  | some e => .error e
  | none => .ok (db.rows.filter (fun r => r.id = id)).head?

/--
`ItemsDAO.insertItem`: `INSERT INTO items (title, description, updated_at,
datetime_at) VALUES (?, ?, ?, ?)` with `updated_at = Date.now()` (the
`now` parameter models the value of `Date.now()` at execution).  The
statement names no `is_done` column, so the schema default `is_done
INTEGER DEFAULT 0` of `INIT_SQL` applies: the stored row has `is_done =
false` whatever the caller's `NewItem.is_done` was.  Returns
`lastInsertRowId`, i.e. the freshly assigned rowid.
-/
def insertItem (db : DB) (newItem : NewItem) (now : Int) (fault : Option JsError) :
    Except JsError (Int × DB) :=
  match fault with
  | some e => .error e
  | none =>
    let row : Item :=
      { id := db.nextId
        is_done := false
        title := newItem.title
        description := newItem.description
        updated_at := now
        datetime_at := newItem.datetime_at }
    .ok (db.nextId, { rows := db.rows ++ [row], nextId := db.nextId + 1 })

/--
`ItemsDAO.deleteItem`: `DELETE FROM items WHERE id = ?`; returns
`result.changes`, the number of rows removed.
-/
def deleteItem (db : DB) (id : Int) (fault : Option JsError) :
    Except JsError (Int × DB) :=
  match fault with
  | some e => .error e
  | none =>
    .ok ((db.rows.countP (fun r => r.id = id) : Int),
         { db with rows := db.rows.filter (fun r => r.id ≠ id) })

/--
`ItemsDAO.updateItem`: `UPDATE items SET is_done = ?, title = ?,
description = ?, updated_at = ?, datetime_at = ? WHERE id = ?` with
`updated_at = Date.now()`; returns `result.changes`, the number of rows
matched.
-/
def updateItem (db : DB) (id : Int) (newItem : NewItem) (now : Int)
    (fault : Option JsError) : Except JsError (Int × DB) :=
  match fault with
  | some e => .error e
  | none =>
    .ok ((db.rows.countP (fun r => r.id = id) : Int),
         { db with
            rows := db.rows.map (fun r =>
              if r.id = id then
                { r with
                    is_done := newItem.is_done
                    title := newItem.title
                    description := newItem.description
                    updated_at := now
                    datetime_at := newItem.datetime_at }
              else r) })

/-- `ItemsDAO.clearAllItems`: `DELETE FROM items`. -/
def clearAllItems (db : DB) (fault : Option JsError) : Except JsError DB :=
  match fault with
  | some e => .error e
  | none => .ok { db with rows := [] }

end ItemsDAO

/-! ## Cache Manager: `managers/ItemsManager.ts`

Instance state of the `ItemsManager` singleton: the in-memory snapshot
`items` and the subscriber callbacks `dataListeners`, identified by
numbers, in subscription order.  Listener invocations are modelled as an
emitted list of (listener identity, snapshot delivered) pairs.
-/

/-- The `ItemsManager` instance state: `items` and `dataListeners`. -/
structure ManagerState where
  items : List Item
  dataListeners : List Nat
deriving Repr, DecidableEq

/-- A single listener invocation: which listener was called, with which
snapshot. -/
abbrev Broadcast := Nat × List Item

namespace ItemsManager

/--
`ItemsManager.subscribe`: pushes the listener onto `dataListeners`, then
immediately (synchronously) invokes it with the current `this.items`.
The returned unsubscribe closure is modelled separately as `unsubscribe`.
-/
def subscribe (m : ManagerState) (l : Nat) : ManagerState × List Broadcast :=
  ({ m with dataListeners := m.dataListeners ++ [l] }, [(l, m.items)])

/--
The closure returned by `ItemsManager.subscribe`: replaces
`dataListeners` with its filtering by reference inequality against the
subscribed listener, removing every occurrence of it.
-/
def unsubscribe (m : ManagerState) (l : Nat) : ManagerState :=
  { m with dataListeners := m.dataListeners.filter (fun x => x ≠ l) }

/--
`ItemsManager.notifyDataChange`: calls every registered listener, in
subscription order, with the current `this.items`.
-/
def notifyDataChange (m : ManagerState) : List Broadcast :=
  m.dataListeners.map (fun l => (l, m.items))

/--
`ItemsManager.loadItems`: awaits `ItemsDAO.getAllItems()`; on success
assigns the result to `this.items` and calls `notifyDataChange`; on
failure the assignment never happens (the `await` threw first), no
listener is called, and the caught error is rethrown unchanged.  Returns
the post-call state, the emitted listener invocations, and the propagated
error if any.
-/
def loadItems (m : ManagerState) (db : DB) (fault : Option JsError) :
    ManagerState × List Broadcast × Option JsError :=
  match ItemsDAO.getAllItems db fault with
  | .ok its =>
    let m2 : ManagerState := { m with items := its }
    (m2, notifyDataChange m2, none)
  | .error e => (m, [], some e)

/--
`ItemsManager.addItem`: awaits `ItemsDAO.insertItem(newItem)`, then awaits
`this.loadItems()`.  If the insert throws, `loadItems` is never reached
and the error is rethrown (after an alert); if the insert succeeds and the
reload throws, the reload's error is rethrown.  `insFault` and `loadFault`
are the engine fault parameters of the two statements; `now` is
`Date.now()` at the insert.  Returns (manager state, table state, emitted
listener invocations, propagated error).
-/
def addItem (m : ManagerState) (db : DB) (newItem : NewItem) (now : Int)
    (insFault loadFault : Option JsError) :
    ManagerState × DB × List Broadcast × Option JsError :=
  match ItemsDAO.insertItem db newItem now insFault with
  | .error e => (m, db, [], some e)
  | .ok r =>
    let lr := loadItems m r.2 loadFault
    (lr.1, r.2, lr.2.1, lr.2.2)

/--
`ItemsManager.deleteItem`: awaits `ItemsDAO.deleteItem(id)` — whose
affected-row count is discarded — then awaits `this.loadItems()`; errors
of either step are rethrown unchanged.
-/
def deleteItem (m : ManagerState) (db : DB) (id : Int)
    (delFault loadFault : Option JsError) :
    ManagerState × DB × List Broadcast × Option JsError :=
  match ItemsDAO.deleteItem db id delFault with
  | .error e => (m, db, [], some e)
  | .ok r =>
    let lr := loadItems m r.2 loadFault
    (lr.1, r.2, lr.2.1, lr.2.2)

/--
`ItemsManager.updateItem`: awaits `ItemsDAO.updateItem(id, updatedItem)` —
whose affected-row count is discarded — then awaits `this.loadItems()`;
errors of either step are rethrown unchanged.
-/
def updateItem (m : ManagerState) (db : DB) (id : Int) (updatedItem : NewItem)
    (now : Int) (updFault loadFault : Option JsError) :
    ManagerState × DB × List Broadcast × Option JsError :=
  match ItemsDAO.updateItem db id updatedItem now updFault with
  | .error e => (m, db, [], some e)
  | .ok r =>
    let lr := loadItems m r.2 loadFault
    (lr.1, r.2, lr.2.1, lr.2.2)

/--
`ItemsManager.clearAllItems`: awaits `ItemsDAO.clearAllItems()`, then
awaits `this.loadItems()`; errors of either step are rethrown unchanged.
-/
def clearAllItems (m : ManagerState) (db : DB)
    (clrFault loadFault : Option JsError) :
    ManagerState × DB × List Broadcast × Option JsError :=
  match ItemsDAO.clearAllItems db clrFault with
  | .error e => (m, db, [], some e)
  | .ok db2 =>
    let lr := loadItems m db2 loadFault
    (lr.1, db2, lr.2.1, lr.2.2)

/--
One public operation of the `ItemsManager` life, with its engine fault
parameters, for reasoning about operation sequences.
-/
inductive MOp where
  | load (fault : Option JsError)
  | add (newItem : NewItem) (now : Int) (f1 f2 : Option JsError)
  | del (id : Int) (f1 f2 : Option JsError)
  | upd (id : Int) (newItem : NewItem) (now : Int) (f1 f2 : Option JsError)
  | clear (f1 f2 : Option JsError)
  | sub (l : Nat)
  | unsub (l : Nat)
deriving Repr, DecidableEq

/-- Execute one manager operation, returning the new (manager, table)
state and the listener invocations it emitted. -/
def runOp (s : ManagerState × DB) : MOp → (ManagerState × DB) × List Broadcast
  | .load fault =>
    let r := loadItems s.1 s.2 fault
    ((r.1, s.2), r.2.1)
  | .add newItem now f1 f2 =>
    let r := addItem s.1 s.2 newItem now f1 f2
    ((r.1, r.2.1), r.2.2.1)
  | .del id f1 f2 =>
    let r := deleteItem s.1 s.2 id f1 f2
    ((r.1, r.2.1), r.2.2.1)
  | .upd id newItem now f1 f2 =>
    let r := updateItem s.1 s.2 id newItem now f1 f2
    ((r.1, r.2.1), r.2.2.1)
  | .clear f1 f2 =>
    let r := clearAllItems s.1 s.2 f1 f2
    ((r.1, r.2.1), r.2.2.1)
  | .sub l =>
    let r := subscribe s.1 l
    ((r.1, s.2), r.2)
  | .unsub l => ((unsubscribe s.1 l, s.2), [])

/-- Execute a sequence of manager operations, concatenating the listener
invocations they emit. -/
def runOps (s : ManagerState × DB) : List MOp → (ManagerState × DB) × List Broadcast
  | [] => (s, [])
  | op :: ops =>
    let r := runOp s op
    let r2 := runOps r.1 ops
    (r2.1, r.2 ++ r2.2)

end ItemsManager

/-! ## Theorems -/

/-- If `_db` is cached, any number of consecutive calls return the cached
handle and leave the module state untouched. -/
theorem runCalls_cached (n : Nat) (s : DbState) (h : Nat) (hdb : s.db = some h) :
    runCalls n s = (s, List.replicate n (.resolvedCached h)) := by
  induction n with
  | zero => simp [runCalls]
  | succ k ih =>
    have hstep : getDatabaseConnection s = (s, .resolvedCached h) := by
      simp [getDatabaseConnection, hdb]
    simp [runCalls, hstep, ih, List.replicate_succ]

/-- While an initialization is in flight (`_dbPromise` set, `_db` unset),
consecutive calls all attach to that same promise and change nothing. -/
theorem runCalls_pending (n : Nat) (s : DbState) (p : Nat)
    (hdb : s.db = none) (hp : s.dbPromise = some p) :
    runCalls n s = (s, List.replicate n (.attached p)) := by
  induction n with
  | zero => simp [runCalls]
  | succ k ih =>
    have hstep : getDatabaseConnection s = (s, .attached p) := by
      simp [getDatabaseConnection, hdb, hp]
    simp [runCalls, hstep, ih, List.replicate_succ]

/--
C1: from an uninitialized module state, `n` concurrent
`getDatabaseConnection()` calls arriving before the in-flight attempt
completes start exactly one open-plus-schema-init sequence (`opens` grows
by exactly one) and all attach to the one installed promise, so they all
resolve (or all reject) in lockstep with that attempt; and once the
attempt has succeeded, any number of later calls return the cached handle
with the module state — in particular `opens` — untouched.
-/
theorem getDatabaseConnection_coalesces (s : DbState) (n m h : Nat)
    (hdb : s.db = none) (hp : s.dbPromise = none) (hn : 0 < n) :
    (runCalls n s).1.opens = s.opens + 1 ∧
    (runCalls n s).2 = List.replicate n (.attached s.nextPromise) ∧
    runCalls m (initSucceed (runCalls n s).1 h) =
      (initSucceed (runCalls n s).1 h, List.replicate m (.resolvedCached h)) := by
  obtain ⟨k, rfl⟩ : ∃ k, n = k + 1 := ⟨n - 1, by omega⟩
  have hstep : getDatabaseConnection s =
      ({ s with dbPromise := some s.nextPromise, opens := s.opens + 1,
                nextPromise := s.nextPromise + 1 }, .attached s.nextPromise) := by
    simp [getDatabaseConnection, hdb, hp]
  have hrest := runCalls_pending k
    { s with dbPromise := some s.nextPromise, opens := s.opens + 1,
             nextPromise := s.nextPromise + 1 } s.nextPromise hdb rfl
  have hrun : runCalls (k + 1) s =
      ({ s with dbPromise := some s.nextPromise, opens := s.opens + 1,
                nextPromise := s.nextPromise + 1 },
       List.replicate (k + 1) (.attached s.nextPromise)) := by
    simp [runCalls, hstep, hrest, List.replicate_succ]
  refine ⟨by rw [hrun], by rw [hrun], ?_⟩
  exact runCalls_cached m _ h (by rw [hrun]; rfl)

/-- Witness for C1 at a concrete uninitialized state, three concurrent
calls, then two calls after the successful initialization. -/
theorem getDatabaseConnection_coalesces_witness :
    (runCalls 3 ⟨none, none, 0, 0⟩).1.opens = 0 + 1 ∧
    (runCalls 3 ⟨none, none, 0, 0⟩).2 = List.replicate 3 (.attached 0) ∧
    runCalls 2 (initSucceed (runCalls 3 ⟨none, none, 0, 0⟩).1 7) =
      (initSucceed (runCalls 3 ⟨none, none, 0, 0⟩).1 7,
       List.replicate 2 (.resolvedCached 7)) :=
  getDatabaseConnection_coalesces ⟨none, none, 0, 0⟩ 3 2 7 rfl rfl (by decide)

/--
C6: a failed initialization attempt clears `_dbPromise` (in the `catch`
block, before the failure is reported to the attached callers), so the
next `getDatabaseConnection()` call finds neither `_db` nor `_dbPromise`
set and starts a fresh open-plus-schema-init attempt (`opens` grows by
one, a fresh promise is installed) instead of being stuck with the old
failure.
-/
theorem getDatabaseConnection_retries_after_failure (s : DbState)
    (hdb : s.db = none) :
    (initFail s).dbPromise = none ∧
    getDatabaseConnection (initFail s) =
      ({ s with dbPromise := some s.nextPromise, opens := s.opens + 1,
                nextPromise := s.nextPromise + 1 }, .attached s.nextPromise) := by
  exact ⟨rfl, by simp [initFail, getDatabaseConnection, hdb]⟩

/-- Witness for C6 at a concrete state with a just-failed attempt. -/
theorem getDatabaseConnection_retries_after_failure_witness :
    (initFail ⟨none, some 0, 1, 1⟩).dbPromise = none ∧
    getDatabaseConnection (initFail ⟨none, some 0, 1, 1⟩) =
      ({ db := none, dbPromise := some 1, opens := 2, nextPromise := 2 },
       .attached 1) :=
  getDatabaseConnection_retries_after_failure ⟨none, some 0, 1, 1⟩ rfl

/-- A concrete table for counterexamples: one row with `datetime_at = 5`
stored before one row with `datetime_at` NULL. -/
def exRowFive : Item :=
  { id := 1, is_done := false, title := "a", description := none,
    updated_at := 0, datetime_at := some 5 }

/-- The NULL-`datetime_at` row of the counterexample table. -/
def exRowNull : Item :=
  { id := 2, is_done := false, title := "b", description := none,
    updated_at := 0, datetime_at := none }

/-- The counterexample table holding `exRowFive` then `exRowNull`. -/
def exDB : DB := { rows := [exRowFive, exRowNull], nextId := 3 }

/--
C3 counterexample: on a table holding a record with `datetime_at = 5` and
a record with `datetime_at` NULL, `getAllItems` returns the NULL record
FIRST, not last — SQLite's `ORDER BY datetime_at ASC` sorts NULL before
every non-NULL value, refuting the claim that null `dueAt` is placed last.
-/
theorem getAllItems_nulls_not_last :
    ItemsDAO.getAllItems exDB none = .ok [exRowNull, exRowFive] ∧
    exRowNull.datetime_at = none ∧ exRowFive.datetime_at = some 5 :=
  ⟨rfl, rfl, rfl⟩

/--
C3 amended: for every stored set of records, `getAllItems` returns a
permutation of the stored records that is sorted ascending by
`datetime_at` with records whose `datetime_at` is NULL placed first
(nulls treated as earliest, SQLite's ordering under ASC).
-/
theorem getAllItems_sorted_nulls_first (db : DB) :
    ∃ l, ItemsDAO.getAllItems db none = .ok l ∧
      l.Sorted itemOrder ∧ l.Perm db.rows :=
  ⟨_, rfl, List.sorted_insertionSort itemOrder db.rows,
    List.perm_insertionSort itemOrder db.rows⟩

/--
C4: inserting a `NewItem` and reading the returned id back yields a record
whose `title`, `description` and `datetime_at` equal the input's, whose
`is_done` is false (in particular when the input's was false), and whose
`updated_at` is the layer's own `Date.now()` value — at least the time the
insert was called, and never taken from the caller (`NewItem` has no
`updated_at` field at all).  `hfresh` is the rowid-freshness guarantee of
`id INTEGER PRIMARY KEY` auto-assignment; `hclock` says the clock read
inside `insertItem` is not earlier than the call.
-/
theorem insert_getById_round_trip (db : DB) (ni : NewItem) (now callTime : Int)
    (hfresh : ∀ r ∈ db.rows, r.id ≠ db.nextId) (hclock : callTime ≤ now) :
    ∃ r : Item,
      ItemsDAO.insertItem db ni now none =
        .ok (db.nextId, { rows := db.rows ++ [r], nextId := db.nextId + 1 }) ∧
      ItemsDAO.getItemById { rows := db.rows ++ [r], nextId := db.nextId + 1 }
        db.nextId none = .ok (some r) ∧
      r.title = ni.title ∧ r.description = ni.description ∧
      r.datetime_at = ni.datetime_at ∧ r.is_done = false ∧
      callTime ≤ r.updated_at := by
  refine ⟨{ id := db.nextId, is_done := false, title := ni.title,
            description := ni.description, updated_at := now,
            datetime_at := ni.datetime_at },
          rfl, ?_, rfl, rfl, rfl, rfl, hclock⟩
  have hnil : db.rows.filter (fun x => decide (x.id = db.nextId)) = [] := by
    rw [List.filter_eq_nil_iff]
    intro a ha
    simp [hfresh a ha]
  simp [ItemsDAO.getItemById, List.filter_append, hnil]

/-- Witness for C4: inserting into a one-row table at time 10, called at
time 8. -/
theorem insert_getById_round_trip_witness :
    ∃ r : Item,
      ItemsDAO.insertItem exDB ⟨false, "c", none, some 9⟩ 10 none =
        .ok (exDB.nextId,
          { rows := exDB.rows ++ [r], nextId := exDB.nextId + 1 }) ∧
      ItemsDAO.getItemById { rows := exDB.rows ++ [r], nextId := exDB.nextId + 1 }
        exDB.nextId none = .ok (some r) ∧
      r.title = (⟨false, "c", none, some 9⟩ : NewItem).title ∧
      r.description = (⟨false, "c", none, some 9⟩ : NewItem).description ∧
      r.datetime_at = (⟨false, "c", none, some 9⟩ : NewItem).datetime_at ∧
      r.is_done = false ∧
      (8 : Int) ≤ r.updated_at :=
  insert_getById_round_trip exDB ⟨false, "c", none, some 9⟩ 10 8
    (by decide) (by decide)

/--
C8 counterexample: when the engine fails `getAllItems`'s SELECT with a raw
error, the DAO's catch block rethrows that raw error unchanged — the
propagated error is not a `StorageOperationError` wrapper carrying the
operation name, refuting the claim that errors propagate as
`StorageOperationError`.
-/
theorem dao_error_not_wrapped :
    ItemsDAO.getAllItems exDB (some (JsError.raw "disk failure")) =
      .error (JsError.raw "disk failure") ∧
    (JsError.raw "disk failure").isStorageOperationError = false :=
  ⟨rfl, rfl⟩

/--
C8 amended: for every Record Access Layer operation, a storage-level error
propagates to the caller UNCHANGED — the raw engine error itself, not a
`StorageOperationError` wrapper; the operation name and target id appear
only in a console log, not on the propagated error — and the layer
performs no retry (the failed statement is issued once and its error is
the operation's result).
-/
theorem dao_propagates_raw_error (db : DB) (id : Int) (ni : NewItem)
    (now : Int) (e : JsError) :
    ItemsDAO.getAllItems db (some e) = .error e ∧
    ItemsDAO.getItemById db id (some e) = .error e ∧
    ItemsDAO.insertItem db ni now (some e) = .error e ∧
    ItemsDAO.updateItem db id ni now (some e) = .error e ∧
    ItemsDAO.deleteItem db id (some e) = .error e ∧
    ItemsDAO.clearAllItems db (some e) = .error e :=
  ⟨rfl, rfl, rfl, rfl, rfl, rfl⟩

/--
C2: if the reload fails because `ItemsDAO.getAllItems` fails, `loadItems`
rethrows the very same error, leaves `this.items` exactly as it was (the
assignment sits after the `await` that threw), and invokes no listener;
and a fault that produces any listener invocation at all must be absent —
a broadcast happens only on a successful reload.
-/
theorem loadItems_failure_keeps_snapshot (m : ManagerState) (db : DB)
    (e : JsError) :
    ItemsManager.loadItems m db (some e) = (m, [], some e) ∧
    ∀ fault : Option JsError, fault = none ∨
      (ItemsManager.loadItems m db fault).1 = m ∧
      (ItemsManager.loadItems m db fault).2.1 = [] := by
  refine ⟨rfl, ?_⟩
  intro fault
  cases fault with
  | none => exact Or.inl rfl
  | some e2 => exact Or.inr ⟨rfl, rfl⟩

/--
C5: `addItem` performs the insert, then the reload, in that order.  If the
insert fails, the same error propagates and neither a reload nor a
broadcast occurs (manager, table, listeners all untouched).  If the insert
succeeds but the reload fails, the reload's error propagates, no broadcast
occurs, and the snapshot stays at its pre-mutation value.  On full
success, the table has gained exactly the inserted row and the snapshot is
the reload (the sorted rows) of the post-insert table — evidencing the
insert-before-reload order.
-/
theorem addItem_insert_then_reload (m : ManagerState) (db : DB)
    (ni : NewItem) (now : Int) (e : JsError) (lf : Option JsError) :
    ItemsManager.addItem m db ni now (some e) lf = (m, db, [], some e) ∧
    (ItemsManager.addItem m db ni now none (some e)).1 = m ∧
    (ItemsManager.addItem m db ni now none (some e)).2.2.1 = [] ∧
    (ItemsManager.addItem m db ni now none (some e)).2.2.2 = some e ∧
    (ItemsManager.addItem m db ni now none none).2.2.2 = none ∧
    (ItemsManager.addItem m db ni now none none).2.1.rows =
      db.rows ++ [{ id := db.nextId, is_done := false, title := ni.title,
                    description := ni.description, updated_at := now,
                    datetime_at := ni.datetime_at }] ∧
    (ItemsManager.addItem m db ni now none none).1.items =
      ((ItemsManager.addItem m db ni now none none).2.1.rows).insertionSort
        itemOrder :=
  ⟨rfl, rfl, rfl, rfl, rfl, rfl, rfl⟩

/-- `loadItems` never changes the listener list, and every listener
invocation it emits targets a currently registered listener. -/
theorem ItemsManager.loadItems_listeners (m : ManagerState) (db : DB)
    (fault : Option JsError) :
    (ItemsManager.loadItems m db fault).1.dataListeners = m.dataListeners ∧
    ∀ b ∈ (ItemsManager.loadItems m db fault).2.1, b.1 ∈ m.dataListeners := by
  cases fault with
  | some e =>
    refine ⟨rfl, ?_⟩
    intro b hb
    simp [ItemsManager.loadItems, ItemsDAO.getAllItems] at hb
  | none =>
    refine ⟨rfl, ?_⟩
    intro b hb
    simp only [ItemsManager.loadItems, ItemsDAO.getAllItems,
      ItemsManager.notifyDataChange, List.mem_map] at hb
    obtain ⟨l, hl, rfl⟩ := hb
    exact hl

/-- A listener that is not registered stays unregistered across
`loadItems` and receives none of its invocations. -/
theorem ItemsManager.loadItems_not_listening (m : ManagerState) (db : DB)
    (fault : Option JsError) (l : Nat) (hl : l ∉ m.dataListeners) :
    l ∉ (ItemsManager.loadItems m db fault).1.dataListeners ∧
    ∀ b ∈ (ItemsManager.loadItems m db fault).2.1, b.1 ≠ l := by
  obtain ⟨h1, h2⟩ := ItemsManager.loadItems_listeners m db fault
  refine ⟨by rw [h1]; exact hl, ?_⟩
  intro b hb hbl
  exact hl (hbl ▸ h2 b hb)

/-- A listener that is not registered stays unregistered across any single
manager operation other than its own re-subscription, and receives none of
the operation's listener invocations. -/
theorem ItemsManager.runOp_not_listening (s : ManagerState × DB)
    (op : ItemsManager.MOp) (l : Nat)
    (hl : l ∉ s.1.dataListeners) (hop : op ≠ .sub l) :
    l ∉ (ItemsManager.runOp s op).1.1.dataListeners ∧
    ∀ b ∈ (ItemsManager.runOp s op).2, b.1 ≠ l := by
  cases op with
  | load fault => exact ItemsManager.loadItems_not_listening s.1 s.2 fault l hl
  | add ni now f1 f2 =>
    cases f1 with
    | some e => exact ⟨hl, by intro b hb; simp [ItemsManager.runOp,
        ItemsManager.addItem, ItemsDAO.insertItem] at hb⟩
    | none => exact ItemsManager.loadItems_not_listening s.1 _ f2 l hl
  | del id f1 f2 =>
    cases f1 with
    | some e => exact ⟨hl, by intro b hb; simp [ItemsManager.runOp,
        ItemsManager.deleteItem, ItemsDAO.deleteItem] at hb⟩
    | none => exact ItemsManager.loadItems_not_listening s.1 _ f2 l hl
  | upd id ni now f1 f2 =>
    cases f1 with
    | some e => exact ⟨hl, by intro b hb; simp [ItemsManager.runOp,
        ItemsManager.updateItem, ItemsDAO.updateItem] at hb⟩
    | none => exact ItemsManager.loadItems_not_listening s.1 _ f2 l hl
  | clear f1 f2 =>
    cases f1 with
    | some e => exact ⟨hl, by intro b hb; simp [ItemsManager.runOp,
        ItemsManager.clearAllItems, ItemsDAO.clearAllItems] at hb⟩
    | none => exact ItemsManager.loadItems_not_listening s.1 _ f2 l hl
  | sub l2 =>
    have hne : l ≠ l2 := fun h => hop (by rw [h])
    constructor
    · intro hmem
      simp only [ItemsManager.runOp, ItemsManager.subscribe,
        List.mem_append, List.mem_singleton] at hmem
      rcases hmem with hmem | hmem
      · exact hl hmem
      · exact hne hmem
    · intro b hb
      simp only [ItemsManager.runOp, ItemsManager.subscribe,
        List.mem_singleton] at hb
      rw [hb]
      exact fun h => hne h.symm
  | unsub l2 =>
    refine ⟨?_, by intro b hb; simp [ItemsManager.runOp] at hb⟩
    intro hmem
    simp only [ItemsManager.runOp, ItemsManager.unsubscribe,
      List.mem_filter] at hmem
    exact hl hmem.1

/-- A listener that is not registered and is never re-subscribed receives
no invocation across any sequence of manager operations. -/
theorem ItemsManager.runOps_not_listening (ops : List ItemsManager.MOp)
    (s : ManagerState × DB) (l : Nat)
    (hl : l ∉ s.1.dataListeners) (hops : ItemsManager.MOp.sub l ∉ ops) :
    ∀ b ∈ (ItemsManager.runOps s ops).2, b.1 ≠ l := by
  induction ops generalizing s with
  | nil =>
    intro b hb
    simp [ItemsManager.runOps] at hb
  | cons op ops ih =>
    intro b hb
    have hop : op ≠ ItemsManager.MOp.sub l := fun h => hops (by simp [h])
    have h1 := ItemsManager.runOp_not_listening s op l hl hop
    simp only [ItemsManager.runOps, List.mem_append] at hb
    rcases hb with hb | hb
    · exact h1.2 b hb
    · exact ih (ItemsManager.runOp s op).1 h1.1
        (fun h => hops (List.mem_cons_of_mem _ h)) b hb

/--
C7: `subscribe` registers the listener and synchronously invokes it once
with the current snapshot (before any subsequent mutation can run), and
the returned unsubscribe closure removes it from the listener list, after
which the listener receives zero further invocations across any sequence
of manager operations that does not re-subscribe it.
-/
theorem subscribe_immediate_unsubscribe_silences (m : ManagerState) (db : DB)
    (l : Nat) (ops : List ItemsManager.MOp)
    (hops : ItemsManager.MOp.sub l ∉ ops) :
    ItemsManager.subscribe m l =
      ({ m with dataListeners := m.dataListeners ++ [l] }, [(l, m.items)]) ∧
    l ∉ (ItemsManager.unsubscribe m l).dataListeners ∧
    ∀ b ∈ (ItemsManager.runOps (ItemsManager.unsubscribe m l, db) ops).2,
      b.1 ≠ l := by
  have hnot : l ∉ (ItemsManager.unsubscribe m l).dataListeners := by
    intro h
    simp [ItemsManager.unsubscribe, List.mem_filter] at h
  exact ⟨rfl, hnot, ItemsManager.runOps_not_listening ops _ l hnot hops⟩

/-- Witness for C7: listener 5 subscribed twice, unsubscribed, then a
reload, a fresh subscription of listener 7 and a delete run — no
invocation targets listener 5. -/
theorem subscribe_immediate_unsubscribe_silences_witness :
    ItemsManager.subscribe ⟨[], [5, 7]⟩ 5 =
      (⟨[], [5, 7, 5]⟩, [(5, [])]) ∧
    5 ∉ (ItemsManager.unsubscribe ⟨[], [5, 7]⟩ 5).dataListeners ∧
    ∀ b ∈ (ItemsManager.runOps (ItemsManager.unsubscribe ⟨[], [5, 7]⟩ 5, exDB)
        [ItemsManager.MOp.load none, ItemsManager.MOp.sub 7,
         ItemsManager.MOp.del 1 none none]).2, b.1 ≠ 5 :=
  subscribe_immediate_unsubscribe_silences ⟨[], [5, 7]⟩ exDB 5
    [ItemsManager.MOp.load none, ItemsManager.MOp.sub 7,
     ItemsManager.MOp.del 1 none none] (by decide)

/--
C9: the INSERT statement of `insertItem` names no `is_done` column, so the
schema default `is_done INTEGER DEFAULT 0` of `INIT_SQL` applies: whatever
`is_done` the caller supplied — here `true` — the stored record has
`is_done = false` and reads back as such, until an `updateItem` (whose SET
clause does include `is_done`) sets it.
-/
theorem insertItem_ignores_is_done (db : DB) (ni : NewItem) (now now2 : Int)
    (hfresh : ∀ r ∈ db.rows, r.id ≠ db.nextId) :
    ∃ db2 : DB,
      ItemsDAO.insertItem db { ni with is_done := true } now none =
        .ok (db.nextId, db2) ∧
      ItemsDAO.getItemById db2 db.nextId none = .ok (some
        { id := db.nextId, is_done := false, title := ni.title,
          description := ni.description, updated_at := now,
          datetime_at := ni.datetime_at }) ∧
      ∃ changes db3,
        ItemsDAO.updateItem db2 db.nextId { ni with is_done := true } now2
          none = .ok (changes, db3) ∧
        ItemsDAO.getItemById db3 db.nextId none = .ok (some
          { id := db.nextId, is_done := true, title := ni.title,
            description := ni.description, updated_at := now2,
            datetime_at := ni.datetime_at }) := by
  have hnil : db.rows.filter (fun x => decide (x.id = db.nextId)) = [] := by
    rw [List.filter_eq_nil_iff]
    intro a ha
    simp [hfresh a ha]
  refine ⟨_, rfl, ?_, _, _, rfl, ?_⟩
  · simp [ItemsDAO.getItemById, List.filter_append, hnil]
  · have hmap : db.rows.map (fun r =>
        if r.id = db.nextId then
          { r with is_done := true, title := ni.title,
                   description := ni.description, updated_at := now2,
                   datetime_at := ni.datetime_at }
        else r) = db.rows := by
      have h : db.rows.map (fun r =>
          if r.id = db.nextId then
            { r with is_done := true, title := ni.title,
                     description := ni.description, updated_at := now2,
                     datetime_at := ni.datetime_at }
          else r) = db.rows.map (fun r => r) :=
        List.map_congr_left (fun r hr => by simp [hfresh r hr])
      simpa using h
    simp [ItemsDAO.updateItem, ItemsDAO.getItemById, List.map_append,
      hmap, List.filter_append, hnil]

/-- Witness for C9 on the concrete two-row table, with a `NewItem` whose
`is_done` is `true`. -/
theorem insertItem_ignores_is_done_witness :
    ∃ db2 : DB,
      ItemsDAO.insertItem exDB
        { (⟨false, "c", none, none⟩ : NewItem) with is_done := true } 4 none =
        .ok (exDB.nextId, db2) ∧
      ItemsDAO.getItemById db2 exDB.nextId none = .ok (some
        { id := exDB.nextId, is_done := false, title := "c",
          description := none, updated_at := 4, datetime_at := none }) ∧
      ∃ changes db3,
        ItemsDAO.updateItem db2 exDB.nextId
          { (⟨false, "c", none, none⟩ : NewItem) with is_done := true } 6
          none = .ok (changes, db3) ∧
        ItemsDAO.getItemById db3 exDB.nextId none = .ok (some
          { id := exDB.nextId, is_done := true, title := "c",
            description := none, updated_at := 6, datetime_at := none }) :=
  insertItem_ignores_is_done exDB ⟨false, "c", none, none⟩ 4 6 (by decide)

/--
C10: deleting or updating an id with no matching stored record completes
successfully — the affected-row count of zero from the DAO is discarded,
never inspected — and still performs a full reload: the snapshot becomes
the reload of the unchanged table and exactly one invocation with that
snapshot goes to every currently registered subscriber, with no error.
-/
theorem delete_update_missing_id (m : ManagerState) (db : DB) (id : Int)
    (ni : NewItem) (now : Int) (hid : ∀ r ∈ db.rows, r.id ≠ id) :
    ItemsManager.deleteItem m db id none none =
      ({ m with items := db.rows.insertionSort itemOrder }, db,
       m.dataListeners.map (fun l => (l, db.rows.insertionSort itemOrder)),
       none) ∧
    ItemsManager.updateItem m db id ni now none none =
      ({ m with items := db.rows.insertionSort itemOrder }, db,
       m.dataListeners.map (fun l => (l, db.rows.insertionSort itemOrder)),
       none) := by
  have hfil : db.rows.filter (fun r => decide (r.id ≠ id)) = db.rows := by
    rw [List.filter_eq_self]
    intro a ha
    simp [hid a ha]
  have hmap : db.rows.map (fun r =>
      if r.id = id then
        { r with is_done := ni.is_done, title := ni.title,
                 description := ni.description, updated_at := now,
                 datetime_at := ni.datetime_at }
      else r) = db.rows := by
    have h : db.rows.map (fun r =>
        if r.id = id then
          { r with is_done := ni.is_done, title := ni.title,
                   description := ni.description, updated_at := now,
                   datetime_at := ni.datetime_at }
        else r) = db.rows.map (fun r => r) :=
      List.map_congr_left (fun r hr => by simp [hid r hr])
    simpa using h
  constructor
  · have hstep : ItemsManager.deleteItem m db id none none =
        ({ m with
            items := List.insertionSort itemOrder
              (db.rows.filter (fun r => decide (r.id ≠ id))) },
         { db with rows := db.rows.filter (fun r => decide (r.id ≠ id)) },
         m.dataListeners.map (fun l =>
           (l, List.insertionSort itemOrder
             (db.rows.filter (fun r => decide (r.id ≠ id))))),
         none) := rfl
    rw [hstep, hfil]
  · have hstep : ItemsManager.updateItem m db id ni now none none =
        ({ m with items := (db.rows.map (fun r =>
             if r.id = id then
               { r with is_done := ni.is_done, title := ni.title,
                        description := ni.description, updated_at := now,
                        datetime_at := ni.datetime_at }
             else r)).insertionSort itemOrder },
         { db with rows := db.rows.map (fun r =>
             if r.id = id then
               { r with is_done := ni.is_done, title := ni.title,
                        description := ni.description, updated_at := now,
                        datetime_at := ni.datetime_at }
             else r) },
         m.dataListeners.map (fun l =>
           (l, (db.rows.map (fun r =>
             if r.id = id then
               { r with is_done := ni.is_done, title := ni.title,
                        description := ni.description, updated_at := now,
                        datetime_at := ni.datetime_at }
             else r)).insertionSort itemOrder)),
         none) := rfl
    rw [hstep, hmap]

/-- Witness for C10: deleting and updating the absent id 99 on the
concrete two-row table. -/
theorem delete_update_missing_id_witness :
    ItemsManager.deleteItem ⟨[], [5]⟩ exDB 99 none none =
      ({ (⟨[], [5]⟩ : ManagerState) with
          items := exDB.rows.insertionSort itemOrder }, exDB,
       [5].map (fun l => (l, exDB.rows.insertionSort itemOrder)), none) ∧
    ItemsManager.updateItem ⟨[], [5]⟩ exDB 99 ⟨true, "z", none, none⟩ 7
        none none =
      ({ (⟨[], [5]⟩ : ManagerState) with
          items := exDB.rows.insertionSort itemOrder }, exDB,
       [5].map (fun l => (l, exDB.rows.insertionSort itemOrder)), none) :=
  delete_update_missing_id ⟨[], [5]⟩ exDB 99 ⟨true, "z", none, none⟩ 7
    (by decide)
